import Mathlib

/-!
Verification of the hotel reservation system (`Hotel_reservations.py`).

The module manages three keyed collections — hotels, customers,
reservations — persisted in three JSON files.  We embed the module
shallowly:

* a JSON file is a `FileContent`: missing, corrupt, or a good keyed
  collection (`Store`), a list of `(key, record)` pairs in insertion
  order, matching a Python `dict`;
* `load_data` / `save_data` mirror the source's file helpers (the
  diagnostic `print` on the corrupt branch is I/O and is not modelled);
* the system state `Sys` bundles the three files together with a
  counter feeding `genId`, which models `str(uuid.uuid4())`: each call
  yields a string never produced before (the source relies on uuid4
  collisions being negligible);
* each static method of the source becomes a function on `Sys`
  returning its Python return value, the new state, and the list of
  `save_data` calls it performed, in order.
-/

/-- Keyed collection of records, as a Python dict: a list of key/value
pairs with the dict's insertion order. -/
abbrev Store (α : Type) := List (String × α)

namespace Store

/-- Python `d[k]` / `k in d`: the value at the first matching key. -/
def lookup {α : Type} : Store α → String → Option α
  | [], _ => none
  | (k, v) :: rest, key => if k = key then some v else lookup rest key

/-- Python `k in d`. -/
def contains {α : Type} (l : Store α) (k : String) : Bool :=
  (l.lookup k).isSome

/-- Python `d[k] = v`: replace the value at an existing key in place,
otherwise append the new pair. -/
def insert {α : Type} : Store α → String → α → Store α
  | [], key, v => [(key, v)]
  | (k, w) :: rest, key, v =>
      if k = key then (key, v) :: rest else (k, w) :: insert rest key v

/-- Python `del d[k]`: drop the first pair at the key. -/
def erase {α : Type} : Store α → String → Store α
  | [], _ => []
  | (k, w) :: rest, key => if k = key then rest else (k, w) :: erase rest key

end Store

/-- Content of one of the three JSON store files. -/
inductive FileContent (α : Type) where
  | missing : FileContent α
  | corrupt : FileContent α
  | good : Store α → FileContent α
deriving DecidableEq

/-- Source `load_data` (lines 20–28): a missing file yields `{}`
(`os.path.exists` is false); unreadable JSON is caught and yields `{}`
(the source also prints a diagnostic, I/O that we do not model); a good
file yields its collection. -/
def load_data {α : Type} : FileContent α → Store α
  | FileContent.missing => []
  | FileContent.corrupt => []
  | FileContent.good data => data

/-- Source `save_data` (lines 32–35): serialize the full mapping,
overwriting prior content. -/
def save_data {α : Type} (data : Store α) : FileContent α :=
  FileContent.good data

/-- Model of `str(uuid.uuid4())`: the n-th identifier ever generated.
Distinct indices give distinct strings. -/
def genId (n : Nat) : String :=
  String.mk (List.replicate (n + 1) 'a')

/-- Hotel record (source lines 41–57). `rooms` passes through
unvalidated, so it is an integer. -/
structure Hotel where
  hotel_id : String
  name : String
  location : String
  rooms : Int
  available_rooms : Int
deriving DecidableEq

/-- Customer record (source lines 87–99). -/
structure Customer where
  customer_id : String
  name : String
  email : String
deriving DecidableEq

/-- Reservation record (source lines 129–141). -/
structure Reservation where
  reservation_id : String
  customer_id : String
  hotel_id : String
deriving DecidableEq

/-- One `save_data` call, tagged by the file it wrote. -/
inductive SaveEvent where
  | hotels : Store Hotel → SaveEvent
  | customers : Store Customer → SaveEvent
  | reservations : Store Reservation → SaveEvent
deriving DecidableEq

/-- State of the system: the three store files and the uuid stream
position. -/
structure Sys where
  hotelsFile : FileContent Hotel
  customersFile : FileContent Customer
  reservationsFile : FileContent Reservation
  counter : Nat
deriving DecidableEq

/-- The state before any file has been written. -/
def Sys.init : Sys :=
  { hotelsFile := FileContent.missing
    customersFile := FileContent.missing
    reservationsFile := FileContent.missing
    counter := 0 }

/-- Source `Hotel.create_hotel` (lines 59–66): load hotels, build a
fresh record with `available_rooms = rooms`, store it under its new id,
save. -/
def Hotel.create_hotel (name location : String) (rooms : Int) (s : Sys) :
    Hotel × Sys × List SaveEvent :=
  let hotels := load_data s.hotelsFile
  let new_hotel : Hotel :=
    { hotel_id := genId s.counter, name := name, location := location
      rooms := rooms, available_rooms := rooms }
  let hotels := hotels.insert new_hotel.hotel_id new_hotel
  (new_hotel,
    { s with hotelsFile := save_data hotels, counter := s.counter + 1 },
    [SaveEvent.hotels hotels])

/-- Source `Hotel.delete_hotel` (lines 68–76): load hotels; if the id
is present, delete it, save and return `True`; otherwise return `False`
without saving. -/
def Hotel.delete_hotel (hotel_id : String) (s : Sys) :
    Bool × Sys × List SaveEvent :=
  let hotels := load_data s.hotelsFile
  if hotels.contains hotel_id then
    let hotels := hotels.erase hotel_id
    (true, { s with hotelsFile := save_data hotels }, [SaveEvent.hotels hotels])
  else
    (false, s, [])

/-- Source `Hotel.display_hotels` (lines 78–81). -/
def Hotel.display_hotels (s : Sys) : Store Hotel :=
  load_data s.hotelsFile

/-- Source `Customer.create_customer` (lines 101–108). -/
def Customer.create_customer (name email : String) (s : Sys) :
    Customer × Sys × List SaveEvent :=
  let customers := load_data s.customersFile
  let new_customer : Customer :=
    { customer_id := genId s.counter, name := name, email := email }
  let customers := customers.insert new_customer.customer_id new_customer
  (new_customer,
    { s with customersFile := save_data customers, counter := s.counter + 1 },
    [SaveEvent.customers customers])

/-- Source `Customer.delete_customer` (lines 110–118). -/
def Customer.delete_customer (customer_id : String) (s : Sys) :
    Bool × Sys × List SaveEvent :=
  let customers := load_data s.customersFile
  if customers.contains customer_id then
    let customers := customers.erase customer_id
    (true, { s with customersFile := save_data customers },
      [SaveEvent.customers customers])
  else
    (false, s, [])

/-- Source `Customer.display_customers` (lines 120–123). -/
def Customer.display_customers (s : Sys) : Store Customer :=
  load_data s.customersFile

/-- Source `Reservation.create_reservation` (lines 143–159): load both
collections; fail with `None` if the hotel id is absent or the hotel's
`available_rooms == 0`; otherwise decrement `available_rooms`, save
hotels, then record the fresh reservation and save reservations. -/
def Reservation.create_reservation (customer_id hotel_id : String) (s : Sys) :
    Option Reservation × Sys × List SaveEvent :=
  let reservations := load_data s.reservationsFile
  let hotels := load_data s.hotelsFile
  match hotels.lookup hotel_id with
  | none => (none, s, [])
  | some h =>
    if h.available_rooms = 0 then
      (none, s, [])
    else
      let hotels := hotels.insert hotel_id
        { h with available_rooms := h.available_rooms - 1 }
      let new_reservation : Reservation :=
        { reservation_id := genId s.counter, customer_id := customer_id
          hotel_id := hotel_id }
      let reservations :=
        reservations.insert new_reservation.reservation_id new_reservation
      (some new_reservation,
        { s with hotelsFile := save_data hotels
                 reservationsFile := save_data reservations
                 counter := s.counter + 1 },
        [SaveEvent.hotels hotels, SaveEvent.reservations reservations])

/-- Source `Reservation.cancel_reservation` (lines 161–176): load both
collections; if the reservation id is absent return `False`; otherwise,
when the reservation's hotel still exists, increment its
`available_rooms` and save hotels; then delete the reservation, save
reservations and return `True`. -/
def Reservation.cancel_reservation (reservation_id : String) (s : Sys) :
    Bool × Sys × List SaveEvent :=
  let reservations := load_data s.reservationsFile
  let hotels := load_data s.hotelsFile
  match reservations.lookup reservation_id with
  | none => (false, s, [])
  | some r =>
    match hotels.lookup r.hotel_id with
    | some h =>
      let hotels := hotels.insert r.hotel_id
        { h with available_rooms := h.available_rooms + 1 }
      let reservations := reservations.erase reservation_id
      (true,
        { s with hotelsFile := save_data hotels
                 reservationsFile := save_data reservations },
        [SaveEvent.hotels hotels, SaveEvent.reservations reservations])
    | none =>
      let reservations := reservations.erase reservation_id
      (true, { s with reservationsFile := save_data reservations },
        [SaveEvent.reservations reservations])

/-- Replay a recorded `save_data` call on a state: what the files hold
if the process stops right after that write. -/
def applyEvent (s : Sys) : SaveEvent → Sys
  | SaveEvent.hotels l => { s with hotelsFile := save_data l }
  | SaveEvent.customers l => { s with customersFile := save_data l }
  | SaveEvent.reservations l => { s with reservationsFile := save_data l }

/-- Replay a prefix of the recorded `save_data` calls. -/
def applyEvents (s : Sys) (tr : List SaveEvent) : Sys :=
  tr.foldl applyEvent s

/-- One sequential call of the four operations claim C1 ranges over,
with its arbitrary inputs. -/
inductive Act where
  | createHotel (name location : String) (rooms : Int) : Act
  | deleteHotel (hotel_id : String) : Act
  | createReservation (customer_id hotel_id : String) : Act
  | cancelReservation (reservation_id : String) : Act
deriving DecidableEq

/-- Run one call, keeping only the resulting state. -/
def stepAct (s : Sys) : Act → Sys
  | Act.createHotel name location rooms =>
      (Hotel.create_hotel name location rooms s).2.1
  | Act.deleteHotel hotel_id => (Hotel.delete_hotel hotel_id s).2.1
  | Act.createReservation customer_id hotel_id =>
      (Reservation.create_reservation customer_id hotel_id s).2.1
  | Act.cancelReservation reservation_id =>
      (Reservation.cancel_reservation reservation_id s).2.1

/-- Run a sequence of calls from a state. -/
def runActs (s : Sys) (acts : List Act) : Sys :=
  acts.foldl stepAct s

/-- The `rooms` argument of this call, if it is a hotel creation, is
nonnegative.  The source never validates `rooms`; this is the
hypothesis the availability invariant needs. -/
def Act.roomsOk : Act → Prop
  | Act.createHotel _ _ rooms => 0 ≤ rooms
  | _ => True

instance : DecidablePred Act.roomsOk := by
  intro a
  cases a <;> simp only [Act.roomsOk] <;> infer_instance

/-- Number of reservations in the collection that reference the given
hotel id. -/
def resCount (l : Store Reservation) (hid : String) : Nat :=
  (l.filter (fun q => q.2.hotel_id = hid)).length

namespace Store

theorem lookup_insert_self {α : Type} (l : Store α) (k : String) (v : α) :
    (l.insert k v).lookup k = some v := by
  induction l with
  | nil => simp [insert, lookup]
  | cons p rest ih =>
    obtain ⟨a, w⟩ := p
    by_cases ha : a = k
    · subst ha
      simp [insert, lookup]
    · simp [insert, lookup, ha, ih]

theorem lookup_insert_ne {α : Type} (l : Store α) {k k' : String} (v : α)
    (h : k' ≠ k) : (l.insert k v).lookup k' = l.lookup k' := by
  have h' : k ≠ k' := Ne.symm h
  induction l with
  | nil => simp [insert, lookup, h']
  | cons p rest ih =>
    obtain ⟨a, w⟩ := p
    by_cases ha : a = k
    · subst ha
      simp [insert, lookup, h']
    · simp [insert, lookup, ha, ih]

theorem lookup_mem {α : Type} {l : Store α} {k : String} {v : α}
    (h : l.lookup k = some v) : (k, v) ∈ l := by
  induction l with
  | nil => simp [lookup] at h
  | cons p rest ih =>
    obtain ⟨a, w⟩ := p
    by_cases ha : a = k
    · subst ha
      simp [lookup] at h
      simp [h]
    · simp [lookup, ha] at h
      exact List.mem_cons_of_mem _ (ih h)

theorem lookup_isSome_of_mem {α : Type} {l : Store α} {p : String × α}
    (h : p ∈ l) : (l.lookup p.1).isSome = true := by
  induction l with
  | nil => simp at h
  | cons q rest ih =>
    obtain ⟨a, w⟩ := q
    rcases List.mem_cons.mp h with h | h
    · subst h
      simp [lookup]
    · by_cases ha : a = p.1
      · simp [lookup, ha]
      · simp [lookup, ha, ih h]

theorem lookup_eq_none_of_forall {α : Type} {l : Store α} {k : String}
    (h : ∀ p ∈ l, p.1 ≠ k) : l.lookup k = none := by
  cases hl : l.lookup k with
  | none => rfl
  | some v => exact absurd rfl (h (k, v) (lookup_mem hl))

theorem insert_of_lookup_none {α : Type} {l : Store α} {k : String} (v : α)
    (h : l.lookup k = none) : l.insert k v = l ++ [(k, v)] := by
  induction l with
  | nil => simp [insert]
  | cons p rest ih =>
    obtain ⟨a, w⟩ := p
    by_cases ha : a = k
    · simp [lookup, ha] at h
    · simp [lookup, ha] at h
      simp [insert, ha, ih h]

theorem keys_insert_of_lookup_some {α : Type} {l : Store α} {k : String}
    {w : α} (v : α) (h : l.lookup k = some w) :
    (l.insert k v).map Prod.fst = l.map Prod.fst := by
  induction l with
  | nil => simp [lookup] at h
  | cons p rest ih =>
    obtain ⟨a, u⟩ := p
    by_cases ha : a = k
    · subst ha
      simp [insert]
    · simp [lookup, ha] at h
      simp [insert, ha, ih h]

theorem mem_insert {α : Type} {l : Store α} {k : String} {v : α}
    {p : String × α} (hnd : (l.map Prod.fst).Nodup) (hp : p ∈ l.insert k v) :
    p = (k, v) ∨ (p ∈ l ∧ p.1 ≠ k) := by
  induction l with
  | nil =>
    simp [insert] at hp
    exact Or.inl hp
  | cons q rest ih =>
    obtain ⟨a, w⟩ := q
    simp only [List.map_cons, List.nodup_cons] at hnd
    by_cases ha : a = k
    · subst ha
      simp only [insert, if_pos rfl] at hp
      rcases List.mem_cons.mp hp with h | h
      · exact Or.inl h
      · refine Or.inr ⟨List.mem_cons_of_mem _ h, ?_⟩
        intro hpk
        exact hnd.1 (hpk ▸ List.mem_map_of_mem Prod.fst h)
    · simp only [insert, if_neg ha] at hp
      rcases List.mem_cons.mp hp with h | h
      · subst h
        exact Or.inr ⟨List.mem_cons_self _ _, ha⟩
      · rcases ih hnd.2 h with h | h
        · exact Or.inl h
        · exact Or.inr ⟨List.mem_cons_of_mem _ h.1, h.2⟩

theorem erase_sublist {α : Type} (l : Store α) (k : String) :
    List.Sublist (l.erase k) l := by
  induction l with
  | nil => simp [erase]
  | cons p rest ih =>
    obtain ⟨a, w⟩ := p
    by_cases ha : a = k
    · simp [erase, ha]
    · simpa [erase, ha] using ih.cons₂ (a, w)

theorem mem_erase {α : Type} {l : Store α} {k : String} {p : String × α}
    (hp : p ∈ l.erase k) : p ∈ l :=
  (erase_sublist l k).subset hp

end Store

theorem genId_injective {m n : Nat} (h : genId m = genId n) : m = n := by
  have hlen := congrArg (fun t => t.data.length) h
  simpa [genId] using hlen

theorem resCount_append_single (l : Store Reservation) (k : String)
    (r : Reservation) (hid : String) :
    resCount (l ++ [(k, r)]) hid =
      resCount l hid + (if r.hotel_id = hid then 1 else 0) := by
  by_cases hr : r.hotel_id = hid <;>
    simp [resCount, List.filter_append, hr]

theorem resCount_erase {l : Store Reservation} {k : String} {r : Reservation}
    (h : l.lookup k = some r) (hid : String) :
    resCount l hid =
      resCount (l.erase k) hid + (if r.hotel_id = hid then 1 else 0) := by
  induction l with
  | nil => simp [Store.lookup] at h
  | cons p rest ih =>
    obtain ⟨a, w⟩ := p
    by_cases ha : a = k
    · have hw : w = r := by simpa [Store.lookup, ha] using h
      subst hw
      by_cases hr : w.hotel_id = hid <;>
        simp [resCount, Store.erase, ha, hr, Nat.add_comm]
    · have h' : Store.lookup rest k = some r := by
        simpa [Store.lookup, ha] using h
      have hrec := ih h'
      by_cases hr : r.hotel_id = hid <;> by_cases hw : w.hotel_id = hid <;>
        simp [resCount, Store.erase, ha, hw, hr] at hrec ⊢ <;> omega

theorem resCount_eq_zero {l : Store Reservation} {hid : String}
    (h : ∀ q ∈ l, q.2.hotel_id ≠ hid) : resCount l hid = 0 := by
  simp only [resCount, List.length_eq_zero]
  exact List.filter_eq_nil_iff.mpr fun q hq => by simp [h q hq]

theorem load_data_save_data {α : Type} (l : Store α) :
    load_data (save_data l) = l := rfl

theorem lookup_genId_none {α : Type} {l : Store α} {n : Nat}
    (h : ∀ p ∈ l, ∃ m, m < n ∧ p.1 = genId m) : l.lookup (genId n) = none := by
  apply Store.lookup_eq_none_of_forall
  intro p hp
  obtain ⟨m, hm, hpk⟩ := h p hp
  rw [hpk]
  intro hcontra
  exact absurd (genId_injective hcontra) (Nat.ne_of_lt hm)

theorem create_hotel_spec (name location : String) (rooms : Int) (s : Sys) :
    Hotel.create_hotel name location rooms s =
      (⟨genId s.counter, name, location, rooms, rooms⟩,
       { s with
           hotelsFile := save_data ((load_data s.hotelsFile).insert
             (genId s.counter) ⟨genId s.counter, name, location, rooms, rooms⟩),
           counter := s.counter + 1 },
       [SaveEvent.hotels ((load_data s.hotelsFile).insert (genId s.counter)
           ⟨genId s.counter, name, location, rooms, rooms⟩)]) := rfl

theorem delete_hotel_absent_spec {hotel_id : String} {s : Sys}
    (h : (load_data s.hotelsFile).contains hotel_id = false) :
    Hotel.delete_hotel hotel_id s = (false, s, []) := by
  simp [Hotel.delete_hotel, h]

theorem delete_hotel_present_spec {hotel_id : String} {s : Sys}
    (h : (load_data s.hotelsFile).contains hotel_id = true) :
    Hotel.delete_hotel hotel_id s =
      (true,
       { s with hotelsFile :=
           save_data ((load_data s.hotelsFile).erase hotel_id) },
       [SaveEvent.hotels ((load_data s.hotelsFile).erase hotel_id)]) := by
  simp [Hotel.delete_hotel, h]

theorem create_customer_spec (name email : String) (s : Sys) :
    Customer.create_customer name email s =
      (⟨genId s.counter, name, email⟩,
       { s with
           customersFile := save_data ((load_data s.customersFile).insert
             (genId s.counter) ⟨genId s.counter, name, email⟩),
           counter := s.counter + 1 },
       [SaveEvent.customers ((load_data s.customersFile).insert
           (genId s.counter) ⟨genId s.counter, name, email⟩)]) := rfl

theorem delete_customer_absent_spec {customer_id : String} {s : Sys}
    (h : (load_data s.customersFile).contains customer_id = false) :
    Customer.delete_customer customer_id s = (false, s, []) := by
  simp [Customer.delete_customer, h]

theorem delete_customer_present_spec {customer_id : String} {s : Sys}
    (h : (load_data s.customersFile).contains customer_id = true) :
    Customer.delete_customer customer_id s =
      (true,
       { s with customersFile :=
           save_data ((load_data s.customersFile).erase customer_id) },
       [SaveEvent.customers ((load_data s.customersFile).erase customer_id)]) := by
  simp [Customer.delete_customer, h]

theorem create_reservation_absent_spec {customer_id hotel_id : String}
    {s : Sys} (h : (load_data s.hotelsFile).lookup hotel_id = none) :
    Reservation.create_reservation customer_id hotel_id s = (none, s, []) := by
  simp [Reservation.create_reservation, h]

theorem create_reservation_full_spec {customer_id hotel_id : String} {s : Sys}
    {h : Hotel} (hl : (load_data s.hotelsFile).lookup hotel_id = some h)
    (hz : h.available_rooms = 0) :
    Reservation.create_reservation customer_id hotel_id s = (none, s, []) := by
  simp [Reservation.create_reservation, hl, hz]

theorem create_reservation_ok_spec {customer_id hotel_id : String} {s : Sys}
    {h : Hotel} (hl : (load_data s.hotelsFile).lookup hotel_id = some h)
    (hz : ¬h.available_rooms = 0) :
    Reservation.create_reservation customer_id hotel_id s =
      (some ⟨genId s.counter, customer_id, hotel_id⟩,
       { s with
           hotelsFile := save_data ((load_data s.hotelsFile).insert hotel_id
             { h with available_rooms := h.available_rooms - 1 }),
           reservationsFile :=
             save_data ((load_data s.reservationsFile).insert (genId s.counter)
               ⟨genId s.counter, customer_id, hotel_id⟩),
           counter := s.counter + 1 },
       [SaveEvent.hotels ((load_data s.hotelsFile).insert hotel_id
           { h with available_rooms := h.available_rooms - 1 }),
        SaveEvent.reservations ((load_data s.reservationsFile).insert
           (genId s.counter) ⟨genId s.counter, customer_id, hotel_id⟩)]) := by
  simp [Reservation.create_reservation, hl, hz]

theorem cancel_reservation_absent_spec {reservation_id : String} {s : Sys}
    (h : (load_data s.reservationsFile).lookup reservation_id = none) :
    Reservation.cancel_reservation reservation_id s = (false, s, []) := by
  simp [Reservation.cancel_reservation, h]

theorem cancel_reservation_hotel_spec {reservation_id : String} {s : Sys}
    {r : Reservation} {h : Hotel}
    (hr : (load_data s.reservationsFile).lookup reservation_id = some r)
    (hh : (load_data s.hotelsFile).lookup r.hotel_id = some h) :
    Reservation.cancel_reservation reservation_id s =
      (true,
       { s with
           hotelsFile := save_data ((load_data s.hotelsFile).insert r.hotel_id
             { h with available_rooms := h.available_rooms + 1 }),
           reservationsFile :=
             save_data ((load_data s.reservationsFile).erase reservation_id) },
       [SaveEvent.hotels ((load_data s.hotelsFile).insert r.hotel_id
           { h with available_rooms := h.available_rooms + 1 }),
        SaveEvent.reservations
           ((load_data s.reservationsFile).erase reservation_id)]) := by
  simp [Reservation.cancel_reservation, hr, hh]

theorem cancel_reservation_orphan_spec {reservation_id : String} {s : Sys}
    {r : Reservation}
    (hr : (load_data s.reservationsFile).lookup reservation_id = some r)
    (hh : (load_data s.hotelsFile).lookup r.hotel_id = none) :
    Reservation.cancel_reservation reservation_id s =
      (true,
       { s with reservationsFile :=
           save_data ((load_data s.reservationsFile).erase reservation_id) },
       [SaveEvent.reservations
           ((load_data s.reservationsFile).erase reservation_id)]) := by
  simp [Reservation.cancel_reservation, hr, hh]

/-- Invariant maintained by every sequence of hotel and reservation
operations that creates hotels with a nonnegative `rooms` argument:
hotel keys equal the stored `hotel_id` and are distinct; every hotel's
`available_rooms` is nonnegative and, together with the number of live
reservations referencing it, accounts for exactly `rooms`; and every
identifier in the stores was generated strictly before the uuid
stream's current position. -/
structure SysInv (s : Sys) : Prop where
  hkeys : ∀ p ∈ load_data s.hotelsFile, p.1 = p.2.hotel_id
  hnodup : ((load_data s.hotelsFile).map Prod.fst).Nodup
  hbound : ∀ p ∈ load_data s.hotelsFile,
    0 ≤ p.2.available_rooms ∧
      p.2.available_rooms +
        (resCount (load_data s.reservationsFile) p.2.hotel_id : Int) =
        p.2.rooms
  hfresh : ∀ p ∈ load_data s.hotelsFile,
    ∃ m, m < s.counter ∧ p.1 = genId m
  rfresh : ∀ q ∈ load_data s.reservationsFile,
    ∃ m, m < s.counter ∧ q.1 = genId m
  rhfresh : ∀ q ∈ load_data s.reservationsFile,
    ∃ m, m < s.counter ∧ q.2.hotel_id = genId m

theorem sysInv_init : SysInv Sys.init := by
  constructor <;> simp [Sys.init, load_data]

theorem not_mem_keys_of_lookup_none {α : Type} {l : Store α} {k : String}
    (h : l.lookup k = none) : k ∉ l.map Prod.fst := by
  intro hk
  obtain ⟨p, hp, hfst⟩ := List.mem_map.mp hk
  have := Store.lookup_isSome_of_mem hp
  rw [hfst, h] at this
  simp at this

theorem sysInv_create_hotel {s : Sys} (inv : SysInv s)
    (name location : String) {rooms : Int} (hrooms : 0 ≤ rooms) :
    SysInv (Hotel.create_hotel name location rooms s).2.1 := by
  have hnone : (load_data s.hotelsFile).lookup (genId s.counter) = none :=
    lookup_genId_none inv.hfresh
  have happ := Store.insert_of_lookup_none
    (⟨genId s.counter, name, location, rooms, rooms⟩ : Hotel) hnone
  rw [create_hotel_spec]
  dsimp only
  simp only [happ]
  constructor <;> dsimp only <;> try simp only [load_data_save_data]
  case hkeys =>
    intro p hp
    rcases List.mem_append.mp hp with hp | hp
    · exact inv.hkeys p hp
    · simp at hp
      subst hp
      rfl
  case hnodup =>
    rw [List.map_append, List.nodup_append]
    refine ⟨inv.hnodup, by simp, ?_⟩
    intro a ha hb
    simp at hb
    subst hb
    exact not_mem_keys_of_lookup_none hnone ha
  case hbound =>
    intro p hp
    rcases List.mem_append.mp hp with hp | hp
    · exact inv.hbound p hp
    · simp at hp
      subst hp
      refine ⟨hrooms, ?_⟩
      have hzero : resCount (load_data s.reservationsFile)
          (genId s.counter) = 0 := by
        apply resCount_eq_zero
        intro q hq
        obtain ⟨m, hm, hq2⟩ := inv.rhfresh q hq
        rw [hq2]
        intro hcontra
        exact absurd (genId_injective hcontra) (Nat.ne_of_lt hm)
      simp [hzero]
  case hfresh =>
    intro p hp
    rcases List.mem_append.mp hp with hp | hp
    · obtain ⟨m, hm, hpk⟩ := inv.hfresh p hp
      exact ⟨m, Nat.lt_succ_of_lt hm, hpk⟩
    · simp at hp
      subst hp
      exact ⟨s.counter, Nat.lt_succ_self _, rfl⟩
  case rfresh =>
    intro q hq
    obtain ⟨m, hm, hqk⟩ := inv.rfresh q hq
    exact ⟨m, Nat.lt_succ_of_lt hm, hqk⟩
  case rhfresh =>
    intro q hq
    obtain ⟨m, hm, hqk⟩ := inv.rhfresh q hq
    exact ⟨m, Nat.lt_succ_of_lt hm, hqk⟩

theorem sysInv_delete_hotel {s : Sys} (inv : SysInv s) (hotel_id : String) :
    SysInv (Hotel.delete_hotel hotel_id s).2.1 := by
  cases hc : (load_data s.hotelsFile).contains hotel_id with
  | false =>
    rw [delete_hotel_absent_spec hc]
    exact inv
  | true =>
    rw [delete_hotel_present_spec hc]
    have hsub := Store.erase_sublist (load_data s.hotelsFile) hotel_id
    constructor <;> dsimp only <;> try simp only [load_data_save_data]
    case hkeys =>
      intro p hp
      exact inv.hkeys p (hsub.subset hp)
    case hnodup =>
      exact List.Nodup.sublist (hsub.map Prod.fst) inv.hnodup
    case hbound =>
      intro p hp
      exact inv.hbound p (hsub.subset hp)
    case hfresh =>
      intro p hp
      exact inv.hfresh p (hsub.subset hp)
    case rfresh => exact inv.rfresh
    case rhfresh => exact inv.rhfresh

theorem sysInv_create_reservation {s : Sys} (inv : SysInv s)
    (customer_id hotel_id : String) :
    SysInv (Reservation.create_reservation customer_id hotel_id s).2.1 := by
  cases hl : (load_data s.hotelsFile).lookup hotel_id with
  | none =>
    rw [create_reservation_absent_spec hl]
    exact inv
  | some h =>
    by_cases hz : h.available_rooms = 0
    · rw [create_reservation_full_spec hl hz]
      exact inv
    · rw [create_reservation_ok_spec hl hz]
      have hmem : (hotel_id, h) ∈ load_data s.hotelsFile := Store.lookup_mem hl
      have hid_eq : hotel_id = h.hotel_id := inv.hkeys _ hmem
      have rnone : (load_data s.reservationsFile).lookup (genId s.counter) =
          none := lookup_genId_none inv.rfresh
      have rapp := Store.insert_of_lookup_none
        (⟨genId s.counter, customer_id, hotel_id⟩ : Reservation) rnone
      have hkeys' := Store.keys_insert_of_lookup_some
        ({ h with available_rooms := h.available_rooms - 1 }) hl
      refine ⟨?_, ?_, ?_, ?_, ?_, ?_⟩ <;> dsimp only <;>
        try simp only [load_data_save_data]
      · intro p hp
        rcases Store.mem_insert inv.hnodup hp with hp | ⟨hp, _⟩
        · subst hp
          exact hid_eq
        · exact inv.hkeys p hp
      · rw [hkeys']
        exact inv.hnodup
      ·
        intro p hp
        rw [rapp, resCount_append_single]
        rcases Store.mem_insert inv.hnodup hp with hp | ⟨hp, hne⟩
        · subst hp
          obtain ⟨hge, hsum⟩ := inv.hbound _ hmem
          dsimp only at hge hsum ⊢
          rw [← hid_eq, if_pos rfl]
          rw [← hid_eq] at hsum
          constructor
          · omega
          · push_cast
            omega
        · obtain ⟨hge, hsum⟩ := inv.hbound p hp
          have hne' : ¬(hotel_id = p.2.hotel_id) := by
            rw [← inv.hkeys p hp]
            exact fun e => hne e.symm
          rw [if_neg hne']
          exact ⟨hge, by simpa using hsum⟩
      · intro p hp
        rcases Store.mem_insert inv.hnodup hp with hp | ⟨hp, _⟩
        · obtain ⟨m, hm, hk⟩ := inv.hfresh _ hmem
          subst hp
          exact ⟨m, Nat.lt_succ_of_lt hm, hk⟩
        · obtain ⟨m, hm, hk⟩ := inv.hfresh p hp
          exact ⟨m, Nat.lt_succ_of_lt hm, hk⟩
      · intro q hq
        rw [rapp] at hq
        rcases List.mem_append.mp hq with hq | hq
        · obtain ⟨m, hm, hk⟩ := inv.rfresh q hq
          exact ⟨m, Nat.lt_succ_of_lt hm, hk⟩
        · simp at hq
          subst hq
          exact ⟨s.counter, Nat.lt_succ_self _, rfl⟩
      · intro q hq
        rw [rapp] at hq
        rcases List.mem_append.mp hq with hq | hq
        · obtain ⟨m, hm, hk⟩ := inv.rhfresh q hq
          exact ⟨m, Nat.lt_succ_of_lt hm, hk⟩
        · simp at hq
          subst hq
          obtain ⟨m, hm, hk⟩ := inv.hfresh _ hmem
          exact ⟨m, Nat.lt_succ_of_lt hm, hk⟩

theorem sysInv_cancel_reservation {s : Sys} (inv : SysInv s)
    (reservation_id : String) :
    SysInv (Reservation.cancel_reservation reservation_id s).2.1 := by
  cases hr : (load_data s.reservationsFile).lookup reservation_id with
  | none =>
    rw [cancel_reservation_absent_spec hr]
    exact inv
  | some r =>
    have hrsub := Store.erase_sublist (load_data s.reservationsFile)
      reservation_id
    cases hh : (load_data s.hotelsFile).lookup r.hotel_id with
    | none =>
      rw [cancel_reservation_orphan_spec hr hh]
      have hnotref : ∀ p ∈ load_data s.hotelsFile, p.1 ≠ r.hotel_id := by
        intro p hp hcontra
        have := Store.lookup_isSome_of_mem hp
        rw [hcontra, hh] at this
        simp at this
      refine ⟨?_, ?_, ?_, ?_, ?_, ?_⟩ <;> dsimp only <;>
        try simp only [load_data_save_data]
      · exact inv.hkeys
      · exact inv.hnodup
      · intro p hp
        obtain ⟨hge, hsum⟩ := inv.hbound p hp
        have hcount := resCount_erase hr p.2.hotel_id
        have hne : ¬(r.hotel_id = p.2.hotel_id) := by
          rw [← inv.hkeys p hp]
          exact fun e => hnotref p hp e.symm
        rw [if_neg hne] at hcount
        refine ⟨hge, ?_⟩
        omega
      · exact inv.hfresh
      · intro q hq
        exact inv.rfresh q (hrsub.subset hq)
      · intro q hq
        exact inv.rhfresh q (hrsub.subset hq)
    | some h =>
      rw [cancel_reservation_hotel_spec hr hh]
      have hmem : (r.hotel_id, h) ∈ load_data s.hotelsFile :=
        Store.lookup_mem hh
      have hid_eq : r.hotel_id = h.hotel_id := inv.hkeys _ hmem
      have hkeys' := Store.keys_insert_of_lookup_some
        ({ h with available_rooms := h.available_rooms + 1 }) hh
      refine ⟨?_, ?_, ?_, ?_, ?_, ?_⟩ <;> dsimp only <;>
        try simp only [load_data_save_data]
      · intro p hp
        rcases Store.mem_insert inv.hnodup hp with hp | ⟨hp, _⟩
        · subst hp
          exact hid_eq
        · exact inv.hkeys p hp
      · rw [hkeys']
        exact inv.hnodup
      · intro p hp
        rcases Store.mem_insert inv.hnodup hp with hp | ⟨hp, hne⟩
        · subst hp
          obtain ⟨hge, hsum⟩ := inv.hbound _ hmem
          dsimp only at hge hsum ⊢
          have hcount := resCount_erase hr h.hotel_id
          rw [← hid_eq, if_pos rfl] at hcount
          rw [← hid_eq] at hsum ⊢
          constructor
          · omega
          · omega
        · obtain ⟨hge, hsum⟩ := inv.hbound p hp
          have hcount := resCount_erase hr p.2.hotel_id
          have hne' : ¬(r.hotel_id = p.2.hotel_id) := by
            rw [← inv.hkeys p hp]
            exact fun e => hne e.symm
          rw [if_neg hne'] at hcount
          refine ⟨hge, ?_⟩
          omega
      · intro p hp
        rcases Store.mem_insert inv.hnodup hp with hp | ⟨hp, _⟩
        · obtain ⟨m, hm, hk⟩ := inv.hfresh _ hmem
          subst hp
          exact ⟨m, hm, hk⟩
        · exact inv.hfresh p hp
      · intro q hq
        exact inv.rfresh q (hrsub.subset hq)
      · intro q hq
        exact inv.rhfresh q (hrsub.subset hq)

theorem sysInv_stepAct {s : Sys} {a : Act} (inv : SysInv s)
    (ha : a.roomsOk) : SysInv (stepAct s a) := by
  cases a with
  | createHotel name location rooms =>
    exact sysInv_create_hotel inv name location ha
  | deleteHotel hotel_id => exact sysInv_delete_hotel inv hotel_id
  | createReservation customer_id hotel_id =>
    exact sysInv_create_reservation inv customer_id hotel_id
  | cancelReservation reservation_id =>
    exact sysInv_cancel_reservation inv reservation_id

theorem sysInv_runActs {s : Sys} (inv : SysInv s) {acts : List Act}
    (h : ∀ a ∈ acts, a.roomsOk) : SysInv (runActs s acts) := by
  induction acts generalizing s with
  | nil => exact inv
  | cons a rest ih =>
    exact ih (sysInv_stepAct inv (h a (List.mem_cons_self a rest)))
      (fun b hb => h b (List.mem_cons_of_mem a hb))

/-- C1 (counterexample): the claim as stated quantifies over arbitrary
inputs, including the `rooms` argument of `create_hotel`; the single
call `create_hotel("N", "L", -1)` from empty stores reaches a hotel
record whose `available_rooms` is `-1`, violating
`0 ≤ available_rooms`. -/
theorem C1_counterexample :
    (genId 0,
      ({ hotel_id := genId 0, name := "N", location := "L", rooms := -1,
         available_rooms := -1 } : Hotel)) ∈
      load_data (runActs Sys.init [Act.createHotel "N" "L" (-1)]).hotelsFile ∧
    ¬(0 ≤ ({ hotel_id := genId 0, name := "N", location := "L",
             rooms := -1, available_rooms := -1 } : Hotel).available_rooms) := by
  decide

/-- C1 (amended): under sequential access, for every sequence of
`create_hotel`, `delete_hotel`, `create_reservation`,
`cancel_reservation` calls starting from empty stores in which every
`create_hotel` call passes a nonnegative `rooms` argument, every hotel
record in the store satisfies `0 ≤ available_rooms ≤ rooms`; since the
sequence is arbitrary, this holds at all intermediate times as well. -/
theorem C1_availability_invariant (acts : List Act)
    (hrooms : ∀ a ∈ acts, a.roomsOk) :
    ∀ p ∈ load_data (runActs Sys.init acts).hotelsFile,
      0 ≤ p.2.available_rooms ∧ p.2.available_rooms ≤ p.2.rooms := by
  have inv := sysInv_runActs sysInv_init hrooms
  intro p hp
  obtain ⟨hge, hsum⟩ := inv.hbound p hp
  refine ⟨hge, ?_⟩
  omega

theorem C1_availability_invariant_witness :
    (0 : Int) ≤ ((genId 0,
        ({ hotel_id := genId 0, name := "A", location := "B", rooms := 2,
           available_rooms := 1 } : Hotel)) : String × Hotel).2.available_rooms ∧
    ((genId 0,
        ({ hotel_id := genId 0, name := "A", location := "B", rooms := 2,
           available_rooms := 1 } : Hotel)) : String × Hotel).2.available_rooms ≤
      ((genId 0,
        ({ hotel_id := genId 0, name := "A", location := "B", rooms := 2,
           available_rooms := 1 } : Hotel)) : String × Hotel).2.rooms :=
  C1_availability_invariant
    [Act.createHotel "A" "B" 2, Act.createReservation "c" (genId 0)]
    (by decide)
    (genId 0,
      { hotel_id := genId 0, name := "A", location := "B", rooms := 2,
        available_rooms := 1 })
    (by decide)

/-- C2: for every state and customer id, calling `create_reservation`
with a hotel id that is absent from the hotels store, or whose record
has `available_rooms = 0`, returns `None` and leaves the whole state —
in particular the hotels store and the reservations store — unchanged,
performing no save. -/
theorem C2_failed_create_is_noop (customer_id hotel_id : String) (s : Sys)
    (hfail : (load_data s.hotelsFile).lookup hotel_id = none ∨
      ∃ hrec, (load_data s.hotelsFile).lookup hotel_id = some hrec ∧
        hrec.available_rooms = 0) :
    Reservation.create_reservation customer_id hotel_id s = (none, s, []) := by
  rcases hfail with hnone | ⟨hrec, hsome, hzero⟩
  · exact create_reservation_absent_spec hnone
  · exact create_reservation_full_spec hsome hzero

theorem C2_failed_create_is_noop_witness :
    Reservation.create_reservation "c" "missing" Sys.init =
      (none, Sys.init, []) :=
  C2_failed_create_is_noop "c" "missing" Sys.init (Or.inl (by decide))

/-- C3: if the hotels store maps `hotel_id` to a record with
`available_rooms = N > 0`, `create_reservation` succeeds and leaves the
hotel at `N - 1`, and cancelling the returned reservation right away —
the hotel still exists — returns `True` and restores the hotel record
exactly, so `available_rooms` is `N` again. -/
theorem C3_create_cancel_restores {s : Sys} {hotel_id : String} {h : Hotel}
    (customer_id : String)
    (hl : (load_data s.hotelsFile).lookup hotel_id = some h)
    (hpos : 0 < h.available_rooms) :
    (Reservation.create_reservation customer_id hotel_id s).1 =
      some ⟨genId s.counter, customer_id, hotel_id⟩ ∧
    (load_data (Reservation.create_reservation customer_id hotel_id
        s).2.1.hotelsFile).lookup hotel_id =
      some { h with available_rooms := h.available_rooms - 1 } ∧
    (Reservation.cancel_reservation (genId s.counter)
        (Reservation.create_reservation customer_id hotel_id s).2.1).1 =
      true ∧
    (load_data (Reservation.cancel_reservation (genId s.counter)
        (Reservation.create_reservation customer_id hotel_id
          s).2.1).2.1.hotelsFile).lookup hotel_id = some h := by
  have hz : h.available_rooms ≠ 0 := ne_of_gt hpos
  rw [create_reservation_ok_spec hl hz]
  dsimp only
  simp only [load_data_save_data]
  refine ⟨by trivial, Store.lookup_insert_self _ _ _, ?_⟩
  have hr1 : ((load_data s.reservationsFile).insert (genId s.counter)
        (⟨genId s.counter, customer_id, hotel_id⟩ : Reservation)).lookup
        (genId s.counter) =
      some ⟨genId s.counter, customer_id, hotel_id⟩ :=
    Store.lookup_insert_self _ _ _
  have hh1 : (((load_data s.hotelsFile).insert hotel_id
        { h with available_rooms := h.available_rooms - 1 })).lookup
        hotel_id =
      some { h with available_rooms := h.available_rooms - 1 } :=
    Store.lookup_insert_self _ _ _
  rw [cancel_reservation_hotel_spec (s := { s with
        hotelsFile := save_data ((load_data s.hotelsFile).insert hotel_id
          { h with available_rooms := h.available_rooms - 1 }),
        reservationsFile :=
          save_data ((load_data s.reservationsFile).insert (genId s.counter)
            ⟨genId s.counter, customer_id, hotel_id⟩),
        counter := s.counter + 1 }) hr1 hh1]
  dsimp only
  simp only [load_data_save_data]
  refine ⟨by trivial, ?_⟩
  have : ({ h with available_rooms := h.available_rooms - 1 + 1 } : Hotel)
      = h := by
    have harith : h.available_rooms - 1 + 1 = h.available_rooms := by omega
    rw [harith]
  rw [Store.lookup_insert_self, this]

theorem C3_create_cancel_restores_witness :
    (Reservation.create_reservation "c" "h0"
        ⟨save_data [("h0", ⟨"h0", "N", "L", 3, 3⟩)], FileContent.missing,
          FileContent.missing, 7⟩).1 =
      some ⟨genId 7, "c", "h0"⟩ ∧
    (load_data (Reservation.create_reservation "c" "h0"
        ⟨save_data [("h0", ⟨"h0", "N", "L", 3, 3⟩)], FileContent.missing,
          FileContent.missing, 7⟩).2.1.hotelsFile).lookup "h0" =
      some ⟨"h0", "N", "L", 3, 2⟩ ∧
    (Reservation.cancel_reservation (genId 7)
        (Reservation.create_reservation "c" "h0"
          ⟨save_data [("h0", ⟨"h0", "N", "L", 3, 3⟩)], FileContent.missing,
            FileContent.missing, 7⟩).2.1).1 = true ∧
    (load_data (Reservation.cancel_reservation (genId 7)
        (Reservation.create_reservation "c" "h0"
          ⟨save_data [("h0", ⟨"h0", "N", "L", 3, 3⟩)], FileContent.missing,
            FileContent.missing, 7⟩).2.1).2.1.hotelsFile).lookup "h0" =
      some ⟨"h0", "N", "L", 3, 3⟩ :=
  @C3_create_cancel_restores
    ⟨save_data [("h0", ⟨"h0", "N", "L", 3, 3⟩)], FileContent.missing,
      FileContent.missing, 7⟩
    "h0" ⟨"h0", "N", "L", 3, 3⟩ "c" (by decide) (by decide)

/-- C4: cancelling a reservation whose hotel was separately deleted
returns `True`, removes the reservation from the reservations store,
and leaves the hotels store (and the customers store) untouched: the
hotels file is not even rewritten. -/
theorem C4_cancel_without_hotel {s : Sys} {reservation_id : String}
    {r : Reservation}
    (hr : (load_data s.reservationsFile).lookup reservation_id = some r)
    (hh : (load_data s.hotelsFile).lookup r.hotel_id = none) :
    (Reservation.cancel_reservation reservation_id s).1 = true ∧
    (Reservation.cancel_reservation reservation_id s).2.1.hotelsFile =
      s.hotelsFile ∧
    (Reservation.cancel_reservation reservation_id s).2.1.customersFile =
      s.customersFile ∧
    load_data (Reservation.cancel_reservation reservation_id
        s).2.1.reservationsFile =
      (load_data s.reservationsFile).erase reservation_id := by
  rw [cancel_reservation_orphan_spec hr hh]
  exact ⟨rfl, rfl, rfl, rfl⟩

theorem C4_cancel_without_hotel_witness :
    (Reservation.cancel_reservation "r0"
        ⟨FileContent.missing, FileContent.missing,
          save_data [("r0", ⟨"r0", "c0", "ghost"⟩)], 3⟩).1 = true ∧
    (Reservation.cancel_reservation "r0"
        ⟨FileContent.missing, FileContent.missing,
          save_data [("r0", ⟨"r0", "c0", "ghost"⟩)], 3⟩).2.1.hotelsFile =
      FileContent.missing ∧
    (Reservation.cancel_reservation "r0"
        ⟨FileContent.missing, FileContent.missing,
          save_data [("r0", ⟨"r0", "c0", "ghost"⟩)], 3⟩).2.1.customersFile =
      FileContent.missing ∧
    load_data (Reservation.cancel_reservation "r0"
        ⟨FileContent.missing, FileContent.missing,
          save_data [("r0", ⟨"r0", "c0", "ghost"⟩)], 3⟩).2.1.reservationsFile =
      (load_data (save_data [("r0",
        (⟨"r0", "c0", "ghost"⟩ : Reservation))])).erase "r0" :=
  @C4_cancel_without_hotel
    ⟨FileContent.missing, FileContent.missing,
      save_data [("r0", ⟨"r0", "c0", "ghost"⟩)], 3⟩
    "r0" ⟨"r0", "c0", "ghost"⟩ (by decide) (by decide)

/-- C5: deleting a hotel, deleting a customer, or cancelling a
reservation whose id is absent from its store returns `False` and
leaves the state unchanged with no save performed — so repeating the
call gives the same result. -/
theorem C5_delete_missing_noop (hotel_id customer_id reservation_id : String)
    (s : Sys) :
    ((load_data s.hotelsFile).contains hotel_id = false →
      Hotel.delete_hotel hotel_id s = (false, s, [])) ∧
    ((load_data s.customersFile).contains customer_id = false →
      Customer.delete_customer customer_id s = (false, s, [])) ∧
    ((load_data s.reservationsFile).lookup reservation_id = none →
      Reservation.cancel_reservation reservation_id s = (false, s, [])) :=
  ⟨fun hc => delete_hotel_absent_spec hc,
   fun hc => delete_customer_absent_spec hc,
   fun hc => cancel_reservation_absent_spec hc⟩

theorem C5_delete_missing_noop_witness :
    Hotel.delete_hotel "x" Sys.init = (false, Sys.init, []) ∧
    Customer.delete_customer "x" Sys.init = (false, Sys.init, []) ∧
    Reservation.cancel_reservation "x" Sys.init = (false, Sys.init, []) :=
  ⟨(C5_delete_missing_noop "x" "x" "x" Sys.init).1 (by decide),
   (C5_delete_missing_noop "x" "x" "x" Sys.init).2.1 (by decide),
   (C5_delete_missing_noop "x" "x" "x" Sys.init).2.2 (by decide)⟩

/-- C6: saving a keyed collection of records to a store and loading it
back yields the collection unchanged, field for field. -/
theorem C6_save_load_roundtrip {α : Type} (data : Store α) :
    load_data (save_data data) = data := rfl

/-- C7: `load_data` fails open: a missing store file yields the empty
mapping, and a corrupt (unreadable) store file likewise yields the
empty mapping (the source logs a diagnostic on that branch); being a
total function into `Store α`, it never propagates a parse error to
the caller. -/
theorem C7_load_fails_open (α : Type) :
    load_data (FileContent.missing : FileContent α) = [] ∧
    load_data (FileContent.corrupt : FileContent α) = [] :=
  ⟨rfl, rfl⟩

/-- C8: a successful `create_reservation` performs exactly two saves,
the hotels store with the decremented `available_rooms` strictly before
the reservations store with the new record; replaying only the first
save — the state seen if the process fails between the two — shows the
room already marked unavailable while the new reservation is nowhere in
the reservations store. -/
theorem C8_hotels_saved_first (customer_id hotel_id : String) {s : Sys}
    {h : Hotel} (hl : (load_data s.hotelsFile).lookup hotel_id = some h)
    (hz : ¬h.available_rooms = 0)
    (hfreshid : (load_data s.reservationsFile).lookup (genId s.counter) =
      none) :
    (Reservation.create_reservation customer_id hotel_id s).2.2 =
      [SaveEvent.hotels ((load_data s.hotelsFile).insert hotel_id
          { h with available_rooms := h.available_rooms - 1 }),
       SaveEvent.reservations ((load_data s.reservationsFile).insert
          (genId s.counter) ⟨genId s.counter, customer_id, hotel_id⟩)] ∧
    (load_data (applyEvents s ((Reservation.create_reservation customer_id
        hotel_id s).2.2.take 1)).hotelsFile).lookup hotel_id =
      some { h with available_rooms := h.available_rooms - 1 } ∧
    (load_data (applyEvents s ((Reservation.create_reservation customer_id
        hotel_id s).2.2.take 1)).reservationsFile).lookup (genId s.counter) =
      none := by
  rw [create_reservation_ok_spec hl hz]
  dsimp only
  refine ⟨rfl, ?_, ?_⟩
  · simp only [List.take, applyEvents, List.foldl, applyEvent,
      load_data_save_data]
    exact Store.lookup_insert_self _ _ _
  · simp only [List.take, applyEvents, List.foldl, applyEvent]
    exact hfreshid

theorem C8_hotels_saved_first_witness :
    (Reservation.create_reservation "c" "h"
        ⟨save_data [("h", ⟨"h", "N", "L", 1, 1⟩)], FileContent.missing,
          FileContent.missing, 0⟩).2.2 =
      [SaveEvent.hotels [("h", ⟨"h", "N", "L", 1, 0⟩)],
       SaveEvent.reservations [(genId 0, ⟨genId 0, "c", "h"⟩)]] ∧
    (load_data (applyEvents
        ⟨save_data [("h", ⟨"h", "N", "L", 1, 1⟩)], FileContent.missing,
          FileContent.missing, 0⟩
        ((Reservation.create_reservation "c" "h"
          ⟨save_data [("h", ⟨"h", "N", "L", 1, 1⟩)], FileContent.missing,
            FileContent.missing, 0⟩).2.2.take 1)).hotelsFile).lookup "h" =
      some ⟨"h", "N", "L", 1, 0⟩ ∧
    (load_data (applyEvents
        ⟨save_data [("h", ⟨"h", "N", "L", 1, 1⟩)], FileContent.missing,
          FileContent.missing, 0⟩
        ((Reservation.create_reservation "c" "h"
          ⟨save_data [("h", ⟨"h", "N", "L", 1, 1⟩)], FileContent.missing,
            FileContent.missing, 0⟩).2.2.take 1)).reservationsFile).lookup
      (genId 0) = none :=
  @C8_hotels_saved_first "c" "h"
    ⟨save_data [("h", ⟨"h", "N", "L", 1, 1⟩)], FileContent.missing,
      FileContent.missing, 0⟩
    ⟨"h", "N", "L", 1, 1⟩ (by decide) (by decide) (by decide)

/-- C9: the guard in `create_reservation` rejects only
`available_rooms == 0`, so against a hotel whose `available_rooms` is
already negative the call succeeds, returns a reservation, and
decrements `available_rooms` one further below zero. -/
theorem C9_negative_rooms_still_books (customer_id hotel_id : String)
    {s : Sys} {h : Hotel}
    (hl : (load_data s.hotelsFile).lookup hotel_id = some h)
    (hneg : h.available_rooms < 0) :
    (Reservation.create_reservation customer_id hotel_id s).1 =
      some ⟨genId s.counter, customer_id, hotel_id⟩ ∧
    (load_data (Reservation.create_reservation customer_id hotel_id
        s).2.1.hotelsFile).lookup hotel_id =
      some { h with available_rooms := h.available_rooms - 1 } ∧
    h.available_rooms - 1 < h.available_rooms ∧
    h.available_rooms - 1 < 0 := by
  have hz : ¬h.available_rooms = 0 := by omega
  rw [create_reservation_ok_spec hl hz]
  dsimp only
  simp only [load_data_save_data]
  exact ⟨by trivial, Store.lookup_insert_self _ _ _, by omega, by omega⟩

theorem C9_negative_rooms_still_books_witness :
    (Reservation.create_reservation "c" "h"
        ⟨save_data [("h", ⟨"h", "N", "L", 0, -1⟩)], FileContent.missing,
          FileContent.missing, 0⟩).1 = some ⟨genId 0, "c", "h"⟩ ∧
    (load_data (Reservation.create_reservation "c" "h"
        ⟨save_data [("h", ⟨"h", "N", "L", 0, -1⟩)], FileContent.missing,
          FileContent.missing, 0⟩).2.1.hotelsFile).lookup "h" =
      some ⟨"h", "N", "L", 0, -2⟩ ∧
    (-1 : Int) - 1 < -1 ∧ (-1 : Int) - 1 < 0 := by
  simpa using @C9_negative_rooms_still_books "c" "h"
    ⟨save_data [("h", ⟨"h", "N", "L", 0, -1⟩)], FileContent.missing,
      FileContent.missing, 0⟩
    ⟨"h", "N", "L", 0, -1⟩ (by decide) (by decide)

/-- C10: each operation writes only its own collection(s): customer
creation and deletion never touch the hotels or reservations files;
hotel creation and deletion never touch the customers or reservations
files (so deleting a hotel leaves reservations referencing it intact);
reservation creation and cancellation never touch the customers
file. -/
theorem C10_frame_conditions (name location email chotel_id ccustomer_id
    hotel_id reservation_id : String) (rooms : Int) (s : Sys) :
    ((Customer.create_customer name email s).2.1.hotelsFile =
        s.hotelsFile ∧
      (Customer.create_customer name email s).2.1.reservationsFile =
        s.reservationsFile) ∧
    ((Customer.delete_customer ccustomer_id s).2.1.hotelsFile =
        s.hotelsFile ∧
      (Customer.delete_customer ccustomer_id s).2.1.reservationsFile =
        s.reservationsFile) ∧
    ((Hotel.create_hotel name location rooms s).2.1.customersFile =
        s.customersFile ∧
      (Hotel.create_hotel name location rooms s).2.1.reservationsFile =
        s.reservationsFile) ∧
    ((Hotel.delete_hotel hotel_id s).2.1.customersFile =
        s.customersFile ∧
      (Hotel.delete_hotel hotel_id s).2.1.reservationsFile =
        s.reservationsFile) ∧
    (Reservation.create_reservation ccustomer_id chotel_id
        s).2.1.customersFile = s.customersFile ∧
    (Reservation.cancel_reservation reservation_id s).2.1.customersFile =
      s.customersFile := by
  refine ⟨⟨rfl, rfl⟩, ?_, ⟨rfl, rfl⟩, ?_, ?_, ?_⟩
  · cases hc : (load_data s.customersFile).contains ccustomer_id with
    | false => rw [delete_customer_absent_spec hc]; exact ⟨rfl, rfl⟩
    | true => rw [delete_customer_present_spec hc]; exact ⟨rfl, rfl⟩
  · cases hc : (load_data s.hotelsFile).contains hotel_id with
    | false => rw [delete_hotel_absent_spec hc]; exact ⟨rfl, rfl⟩
    | true => rw [delete_hotel_present_spec hc]; exact ⟨rfl, rfl⟩
  · cases hl : (load_data s.hotelsFile).lookup chotel_id with
    | none => rw [create_reservation_absent_spec hl]
    | some h =>
      by_cases hz : h.available_rooms = 0
      · rw [create_reservation_full_spec hl hz]
      · rw [create_reservation_ok_spec hl hz]
  · cases hr : (load_data s.reservationsFile).lookup reservation_id with
    | none => rw [cancel_reservation_absent_spec hr]
    | some r =>
      cases hh : (load_data s.hotelsFile).lookup r.hotel_id with
      | none => rw [cancel_reservation_orphan_spec hr hh]
      | some h => rw [cancel_reservation_hotel_spec hr hh]
